import Mathlib

/-!
Verification of the analytics backend core against its specification.

Each definition below is a shallow embedding of a function from the
repository source:
- `checkRateLimit` embeds src/src/utils/rateLimiter.js (checkRateLimit)
- `generateGSCacheKey` embeds src/src/utils/cache.js (generateGSCacheKey)
- `validateRequiredFields` embeds src/src/utils/errors.js (validateRequiredFields)
- `useCredits` embeds the credit-management handler (useCredits)
- `generateInsights` embeds src/src/insights.js (generateInsights)
- `getProperties` / `refreshToken` / `fetchGSCData` embed src/src/gsc.js
  and src/src/auth.js

Stateful code is embedded by explicit state passing; external HTTP calls
are embedded by consuming oracle values carried in the state; JavaScript
timestamps are naturals (milliseconds); fallible paths return explicit
result values.
-/

/-! ### Rate limiter (src/src/utils/rateLimiter.js) -/

/-- A stored rate-limit window entry: `{count, reset}` as kept in KV. -/
structure RLEntry where
  count : Nat
  reset : Nat
deriving Repr, DecidableEq

/-- The value returned by `checkRateLimit`: `{limited, remaining, reset}`. -/
structure RLResult where
  limited : Bool
  remaining : Int
  reset : Nat
deriving Repr, DecidableEq

/-- The KV namespace holding rate-limit entries, as a partial map on keys. -/
def RLStore : Type := String → Option RLEntry

/-- `kv.put` of the rate limiter: overwrite the entry stored at one key. -/
def RLStore.put (kv : RLStore) (k : String) (v : RLEntry) : RLStore :=
  fun k2 => if k2 = k then some v else kv k2

/-- An empty KV namespace (every `kv.get` misses). -/
def emptyRLStore : RLStore := fun _ => none

/-- The per-window key `${key}:${Math.floor(now / (window * 1000))}`. -/
def windowKey (key : String) (window now : Nat) : String :=
  key ++ ":" ++ toString (now / (window * 1000))

/-- Embedding of `checkRateLimit(kv, key, limit, window)` read at time `now`
(milliseconds).  Returns the result object together with the updated store.
The catch-branch of the source (storage failure) is not reachable here
because the store is total. -/
def checkRateLimit (kv : RLStore) (key : String) (limit window now : Nat) :
    RLResult × RLStore :=
  let wk := windowKey key window now
  let current := (kv wk).getD { count := 0, reset := now + window * 1000 }
  if now > current.reset then
    ({ limited := false, remaining := (limit : Int) - 1, reset := now + window * 1000 },
     kv.put wk { count := 1, reset := now + window * 1000 })
  else if current.count ≥ limit then
    ({ limited := true, remaining := 0, reset := current.reset }, kv)
  else
    ({ limited := false, remaining := (limit : Int) - ((current.count : Int) + 1),
       reset := current.reset },
     kv.put wk { count := current.count + 1, reset := current.reset })

/-! ### Response cache key (src/src/utils/cache.js) -/

/-- Code-point order on character lists: the order `localeCompare` gives
on ASCII parameter names. -/
def charListLt : List Char → List Char → Bool
  | [], [] => false
  | [], _ :: _ => true
  | _ :: _, [] => false
  | a :: as, b :: bs =>
    if a.val < b.val then true
    else if b.val < a.val then false
    else charListLt as bs

/-- Code-point order on strings. -/
def strLt (a b : String) : Bool := charListLt a.data b.data

/-- Character-list prefix test. -/
def isPrefixList : List Char → List Char → Bool
  | [], _ => true
  | _ :: _, [] => false
  | a :: as, b :: bs => a == b && isPrefixList as bs

/-- `s.startsWith(pre)` of JavaScript strings. -/
def strStartsWith (s pre : String) : Bool := isPrefixList pre.data s.data

/-- Insert a parameter into a key-sorted parameter list (the comparator of
`Object.entries(params).sort(([a],[b]) => a.localeCompare(b))`, restricted
to the code-point order that `localeCompare` gives on ASCII names). -/
def insertByKey (p : String × String) : List (String × String) → List (String × String)
  | [] => [p]
  | q :: qs => if strLt q.1 p.1 then q :: insertByKey p qs else p :: q :: qs

/-- Sort a parameter list by parameter name. -/
def sortByKey : List (String × String) → List (String × String)
  | [] => []
  | p :: ps => insertByKey p (sortByKey ps)

/-- Embedding of `generateGSCacheKey(userId, endpoint, params)`:
`gsc:{userId}:{endpoint}:{k1}:{v1}|{k2}:{v2}...` over the sorted entries. -/
def generateGSCacheKey (userId endpoint : String) (params : List (String × String)) : String :=
  let paramString :=
    String.intercalate "|" ((sortByKey params).map (fun p => p.1 ++ ":" ++ p.2))
  "gsc:" ++ userId ++ ":" ++ endpoint ++ ":" ++ paramString

/-! ### Request validation (src/src/utils/errors.js) -/

/-- JavaScript values a request-body field can hold, as far as truthiness
is concerned. -/
inductive JSValue where
  | undefv
  | nullv
  | boolean (b : Bool)
  | number (n : Int)
  | strv (s : String)
deriving Repr, DecidableEq

/-- JavaScript truthiness of a field value (`!body[field]` negates this). -/
def JSValue.truthy : JSValue → Bool
  | .undefv => false
  | .nullv => false
  | .boolean b => b
  | .number n => decide (n ≠ 0)
  | .strv s => decide (s ≠ "")

/-- `body[field]`: property access on the body object, `undefined` when the
field is absent. -/
def getField (body : List (String × JSValue)) (f : String) : JSValue :=
  (body.lookup f).getD .undefv

/-- The payload of a thrown `ValidationError(message, {missingFields})`. -/
structure ValidationErrorData where
  message : String
  missingFields : List String
deriving Repr, DecidableEq

/-- Embedding of `validateRequiredFields(body, requiredFields)`: filter the
required names whose value is falsy and throw a single `ValidationError`
listing all of them, or return normally. -/
def validateRequiredFields (body : List (String × JSValue)) (requiredFields : List String) :
    Except ValidationErrorData Unit :=
  let missingFields := requiredFields.filter (fun f => !(getField body f).truthy)
  if missingFields.length > 0 then
    .error { message := "Missing required fields: " ++ String.intercalate ", " missingFields,
             missingFields := missingFields }
  else
    .ok ()

/-! ### Credit ledger (useCredits handler) -/

/-- The per-user slice of the relational store that `useCredits` touches:
the `users.credits` column and the `credit_logs` amounts for the user. -/
structure CreditState where
  credits : Int
  creditLogs : List Int
deriving Repr, DecidableEq

/-- Outcome of one `useCredits` request: a 402 insufficient-credits
response carrying the read balance, or a success response carrying the
new balance. -/
inductive UseCreditsResult where
  | insufficient (credits : Int)
  | success (credits : Int)
deriving Repr, DecidableEq

/-- Embedding of `useCredits`: read the balance; if it is below `amount`
fail with 402 and change nothing; otherwise decrement the balance, append
a `credit_logs` row for `amount`, and report `credits - amount`. -/
def useCredits (st : CreditState) (amount : Int) : UseCreditsResult × CreditState :=
  if st.credits < amount then
    (.insufficient st.credits, st)
  else
    (.success (st.credits - amount),
     { credits := st.credits - amount, creditLogs := st.creditLogs ++ [amount] })

/-- `k` sequential `useCredits` requests of amount 1 against a state. -/
def chargeRepeat : Nat → CreditState → CreditState
  | 0, st => st
  | k + 1, st => (useCredits (chargeRepeat k st) 1).2

/-- The state reached after `k` unit charges starting from a fresh grant
of `B` credits and an empty log. -/
def chargedState (B k : Nat) : CreditState :=
  chargeRepeat k { credits := (B : Int), creditLogs := [] }

/-! ### Insight generation (src/src/insights.js) -/

/-- A `keyMetricChanges` entry of the insight document. -/
structure MetricChange where
  metric : String
  change : String
  interpretation : String
deriving Repr, DecidableEq

/-- The `performance` section of the insight document. -/
structure Performance where
  trend : String
  changePercent : String
  timePeriod : String
  keyMetricChanges : Option (List MetricChange)
  details : String
deriving Repr, DecidableEq

/-- A `topFindings` entry. -/
structure Finding where
  title : String
  description : String
  impactLevel : String
  dataPoints : List String
deriving Repr, DecidableEq

/-- An `opportunities` entry. -/
structure Opportunity where
  title : String
  description : String
  estimatedImpact : String
  difficulty : String
  timeFrame : String
deriving Repr, DecidableEq

/-- A `recommendations` entry. -/
structure Recommendation where
  title : String
  description : String
  priority : String
  expectedOutcome : String
  implementationSteps : List String
deriving Repr, DecidableEq

/-- The `keywordInsights` section. -/
structure KeywordInsights where
  risingKeywords : List String
  decliningKeywords : List String
  missedOpportunities : List String
  analysis : String
deriving Repr, DecidableEq

/-- An insight document as parsed from (or produced for) JSON.  A top-level
key that is absent from the parsed object is `none`. -/
structure InsightsDoc where
  summary : Option String
  performance : Option Performance
  topFindings : Option (List Finding)
  opportunities : Option (List Opportunity)
  recommendations : Option (List Recommendation)
  keywordInsights : Option KeywordInsights
deriving Repr, DecidableEq

/-- Embedding of `generateFallbackInsights(siteUrl, period)`: the
deterministic document returned when the OpenAI call fails. -/
def generateFallbackInsights (siteUrl period : String) : InsightsDoc :=
  { summary := some ("[FALLBACK DATA] Analysis of site performance for " ++ siteUrl ++
      " during " ++ period ++
      ". This is a fallback analysis since the AI service is currently unavailable."),
    performance := some
      { trend := "stable",
        changePercent := "0%",
        timePeriod := period,
        keyMetricChanges := some
          [ { metric := "clicks", change := "0%",
              interpretation := "[FALLBACK] Data temporarily unavailable" },
            { metric := "impressions", change := "0%",
              interpretation := "[FALLBACK] Data temporarily unavailable" },
            { metric := "ctr", change := "0%",
              interpretation := "[FALLBACK] Data temporarily unavailable" },
            { metric := "position", change := "0%",
              interpretation := "[FALLBACK] Data temporarily unavailable" } ],
        details := "[FALLBACK DATA] Performance trend analysis is currently unavailable. Please check your Google Search Console for the most up-to-date metrics." },
    topFindings := some
      [ { title := "[FALLBACK] AI Analysis Unavailable",
          description := "Our AI analysis service is temporarily unavailable. We\x27re working to restore it as soon as possible.",
          impactLevel := "medium",
          dataPoints := ["[FALLBACK] Service disruption detected", "[FALLBACK] Engineering team notified"] },
        { title := "[FALLBACK] Basic SEO Recommendations",
          description := "In the meantime, we recommend checking your site for basic SEO best practices: meta descriptions, title tags, mobile-friendliness, and site speed.",
          impactLevel := "medium",
          dataPoints := ["[FALLBACK] These are general best practices", "[FALLBACK] Specific data analysis will resume soon"] } ],
    opportunities := some
      [ { title := "[FALLBACK] Review Previous Insights",
          description := "While waiting for the service to be restored, you can review previous insights and implement any pending recommendations.",
          estimatedImpact := "[FALLBACK] Varies by recommendation",
          difficulty := "easy",
          timeFrame := "immediate" } ],
    recommendations := some
      [ { title := "[FALLBACK] Check Google Search Console",
          description := "Review your performance metrics directly in Google Search Console for the most accurate data.",
          priority := "high",
          expectedOutcome := "[FALLBACK] Access to accurate, real-time data",
          implementationSteps := ["[FALLBACK] Log in to Google Search Console", "[FALLBACK] Review Performance section"] },
        { title := "[FALLBACK] Try Again Later",
          description := "Our AI analysis service should be available again soon. Please try again in a few hours.",
          priority := "medium",
          expectedOutcome := "[FALLBACK] Access to AI-powered insights",
          implementationSteps := ["[FALLBACK] Check back in 2-3 hours"] },
        { title := "[FALLBACK] Monitor Keywords",
          description := "Keep track of your top-performing keywords and look for opportunities to improve rankings.",
          priority := "medium",
          expectedOutcome := "[FALLBACK] Maintain awareness of keyword performance",
          implementationSteps := ["[FALLBACK] Check positions for key terms", "[FALLBACK] Note any significant changes"] } ],
    keywordInsights := some
      { risingKeywords := ["[FALLBACK] No data available"],
        decliningKeywords := ["[FALLBACK] No data available"],
        missedOpportunities := ["[FALLBACK] No data available"],
        analysis := "[FALLBACK DATA] Keyword trend analysis is temporarily unavailable." } }

/-- Embedding of `generateMockInsights(siteUrl, period)`: the document
returned when mock data is requested. -/
def generateMockInsights (siteUrl period : String) : InsightsDoc :=
  { summary := some ("[MOCK DATA] Analysis of " ++ siteUrl ++
      " shows improvement in overall performance over " ++ period ++
      ". This is generated mock data for testing purposes only and does not represent actual GSC data."),
    performance := some
      { trend := "up", changePercent := "15%", timePeriod := period,
        keyMetricChanges := some
          [ { metric := "clicks", change := "+22%",
              interpretation := "Strong growth indicating improved visibility and relevance [MOCK DATA]" },
            { metric := "impressions", change := "+15%",
              interpretation := "Expanded reach in search results [MOCK DATA]" },
            { metric := "ctr", change := "+8%",
              interpretation := "Better engagement with search snippets [MOCK DATA]" },
            { metric := "position", change := "-0.7",
              interpretation := "Improved average ranking positions [MOCK DATA]" } ],
        details := "[MOCK DATA] This is simulated performance data for testing purposes. In a real analysis, this would contain detailed trends based on actual GSC metrics." },
    topFindings := some
      [ { title := "[MOCK DATA] Mobile Traffic Trend",
          description := "This is mock data for testing purposes. Real analysis would include actual metrics and specific insights based on your GSC data.",
          impactLevel := "high",
          dataPoints := ["Mock data point 1", "Mock data point 2", "Mock data point 3"] },
        { title := "[MOCK DATA] Search Performance",
          description := "This is mock data for testing purposes. Real analysis would include actual metrics and specific insights based on your GSC data.",
          impactLevel := "high",
          dataPoints := ["Mock data point 1", "Mock data point 2"] },
        { title := "[MOCK DATA] Content Performance",
          description := "This is mock data for testing purposes. Real analysis would include actual metrics and specific insights based on your GSC data.",
          impactLevel := "medium",
          dataPoints := ["Mock data point 1", "Mock data point 2"] } ],
    opportunities := some
      [ { title := "[MOCK DATA] Opportunity 1",
          description := "This is mock data for testing purposes. Real analysis would include specific opportunities based on your actual GSC data.",
          estimatedImpact := "[MOCK] Impact estimate", difficulty := "easy",
          timeFrame := "short-term" },
        { title := "[MOCK DATA] Opportunity 2",
          description := "This is mock data for testing purposes. Real analysis would include specific opportunities based on your actual GSC data.",
          estimatedImpact := "[MOCK] Impact estimate", difficulty := "moderate",
          timeFrame := "medium-term" },
        { title := "[MOCK DATA] Opportunity 3",
          description := "This is mock data for testing purposes. Real analysis would include specific opportunities based on your actual GSC data.",
          estimatedImpact := "[MOCK] Impact estimate", difficulty := "complex",
          timeFrame := "long-term" } ],
    recommendations := some
      [ { title := "[MOCK DATA] Recommendation 1",
          description := "This is mock data for testing purposes. Real recommendations would be based on your actual GSC data.",
          priority := "high", expectedOutcome := "[MOCK] Expected outcome",
          implementationSteps := ["[MOCK] Step 1", "[MOCK] Step 2", "[MOCK] Step 3"] },
        { title := "[MOCK DATA] Recommendation 2",
          description := "This is mock data for testing purposes. Real recommendations would be based on your actual GSC data.",
          priority := "medium", expectedOutcome := "[MOCK] Expected outcome",
          implementationSteps := ["[MOCK] Step 1", "[MOCK] Step 2"] },
        { title := "[MOCK DATA] Recommendation 3",
          description := "This is mock data for testing purposes. Real recommendations would be based on your actual GSC data.",
          priority := "medium", expectedOutcome := "[MOCK] Expected outcome",
          implementationSteps := ["[MOCK] Step 1", "[MOCK] Step 2", "[MOCK] Step 3"] } ],
    keywordInsights := some
      { risingKeywords := ["[MOCK] Rising keyword 1", "[MOCK] Rising keyword 2", "[MOCK] Rising keyword 3"],
        decliningKeywords := ["[MOCK] Declining keyword 1", "[MOCK] Declining keyword 2"],
        missedOpportunities := ["[MOCK] Missed opportunity 1", "[MOCK] Missed opportunity 2"],
        analysis := "[MOCK DATA] This is simulated keyword analysis for testing purposes. Real analysis would include actual keywords and trends from your GSC data." } }

/-- Serialization of an optional value: `JSON.stringify` leaves out keys
holding `undefined`, modelled by the marker `_`. -/
def serializeOpt (f : α → String) : Option α → String
  | none => "_"
  | some a => "(" ++ f a ++ ")"

/-- Serialization of a list as a JSON array. -/
def serializeList (f : α → String) (xs : List α) : String :=
  "[" ++ String.intercalate "," (xs.map f) ++ "]"

/-- Serialization of a `keyMetricChanges` entry. -/
def MetricChange.ser (m : MetricChange) : String :=
  "(" ++ m.metric ++ ";" ++ m.change ++ ";" ++ m.interpretation ++ ")"

/-- Serialization of the `performance` section. -/
def Performance.ser (p : Performance) : String :=
  "(" ++ p.trend ++ ";" ++ p.changePercent ++ ";" ++ p.timePeriod ++ ";" ++
    serializeOpt (serializeList MetricChange.ser) p.keyMetricChanges ++ ";" ++ p.details ++ ")"

/-- Serialization of a `topFindings` entry. -/
def Finding.ser (f : Finding) : String :=
  "(" ++ f.title ++ ";" ++ f.description ++ ";" ++ f.impactLevel ++ ";" ++
    serializeList id f.dataPoints ++ ")"

/-- Serialization of an `opportunities` entry. -/
def Opportunity.ser (o : Opportunity) : String :=
  "(" ++ o.title ++ ";" ++ o.description ++ ";" ++ o.estimatedImpact ++ ";" ++
    o.difficulty ++ ";" ++ o.timeFrame ++ ")"

/-- Serialization of a `recommendations` entry. -/
def Recommendation.ser (r : Recommendation) : String :=
  "(" ++ r.title ++ ";" ++ r.description ++ ";" ++ r.priority ++ ";" ++
    r.expectedOutcome ++ ";" ++ serializeList id r.implementationSteps ++ ")"

/-- Serialization of the `keywordInsights` section. -/
def KeywordInsights.ser (k : KeywordInsights) : String :=
  "(" ++ serializeList id k.risingKeywords ++ ";" ++ serializeList id k.decliningKeywords ++
    ";" ++ serializeList id k.missedOpportunities ++ ";" ++ k.analysis ++ ")"

/-- Model of `JSON.stringify` on an insight document: a deterministic
textual encoding listing every top-level key in order. -/
def serializeDoc (d : InsightsDoc) : String :=
  "summary:" ++ serializeOpt id d.summary ++
  "|performance:" ++ serializeOpt Performance.ser d.performance ++
  "|topFindings:" ++ serializeOpt (serializeList Finding.ser) d.topFindings ++
  "|opportunities:" ++ serializeOpt (serializeList Opportunity.ser) d.opportunities ++
  "|recommendations:" ++ serializeOpt (serializeList Recommendation.ser) d.recommendations ++
  "|keywordInsights:" ++ serializeOpt KeywordInsights.ser d.keywordInsights

/-- The default `keywordInsights` object the source fills in when the key
is absent from the model output. -/
def defaultKeywordInsights : KeywordInsights :=
  { risingKeywords := [], decliningKeywords := [], missedOpportunities := [],
    analysis := "No keyword analysis available" }

/-- The default `keyMetricChanges` list the source fills in when the
`performance` object lacks one. -/
def defaultKeyMetricChanges : List MetricChange :=
  [ { metric := "clicks", change := "0%", interpretation := "No data available" },
    { metric := "impressions", change := "0%", interpretation := "No data available" },
    { metric := "ctr", change := "0%", interpretation := "No data available" },
    { metric := "position", change := "0%", interpretation := "No data available" } ]

/-- Embedding of the required-field validation block of `generateInsights`
(insights.js lines 389-421): when any of the six required top-level keys is
missing, fill in `opportunities`, `keywordInsights` and
`performance.keyMetricChanges` when those are missing, leaving every other
key as it was; when all six are present, do nothing. -/
def patchInsights (d : InsightsDoc) : InsightsDoc :=
  if d.summary.isNone || d.performance.isNone || d.topFindings.isNone ||
      d.recommendations.isNone || d.opportunities.isNone || d.keywordInsights.isNone then
    let d1 := if d.opportunities.isNone then { d with opportunities := some [] } else d
    let d2 :=
      if d1.keywordInsights.isNone then
        { d1 with keywordInsights := some defaultKeywordInsights }
      else d1
    match d2.performance with
    | some p =>
        if p.keyMetricChanges.isNone then
          { d2 with performance := some { p with keyMetricChanges := some defaultKeyMetricChanges } }
        else d2
    | none => d2
  else d

/-- Outcome of the one OpenAI call a `generateInsights` run can make,
as seen by the code after the call: the transport can fail (network error
or the 60-second timeout firing), the HTTP status can be non-2xx, the
response body can fail to parse or lack `choices[0].message`, the message
content can fail to parse as a JSON object, or a document is parsed. -/
inductive AIResult where
  | fetchError
  | badStatus (status : Nat)
  | invalidBody
  | contentNotJson (content : String)
  | contentParsed (doc : InsightsDoc)
deriving Repr, DecidableEq

/-- A row of the `insights` table. -/
structure InsightRow where
  userId : String
  siteUrl : String
  date : String
  rowType : String
  content : String
  createdAt : String
deriving Repr, DecidableEq

/-- The slice of the relational store `generateInsights` touches: the
`insights` table and the `users.credits` column. -/
structure InsightsDB where
  insights : List InsightRow
  credits : List (String × Int)
deriving Repr, DecidableEq

/-- The `WHERE user_id = ? AND site_url = ? AND date = ? AND type =
'overall'` row filter. -/
def isOverallRow (userId siteUrl date : String) (r : InsightRow) : Bool :=
  r.userId == userId && r.siteUrl == siteUrl && r.date == date && r.rowType == "overall"

/-- `INSERT OR REPLACE INTO insights`: replace the row with the same
`(user_id, site_url, date, type)` key, if any, by the new row. -/
def insertOrReplaceInsight (db : InsightsDB) (row : InsightRow) : InsightsDB :=
  { db with insights :=
      row :: db.insights.filter (fun r =>
        !(r.userId == row.userId && r.siteUrl == row.siteUrl &&
          r.date == row.date && r.rowType == row.rowType)) }

/-- `UPDATE users SET credits = credits - 1 WHERE id = ?`. -/
def deductOneCredit (db : InsightsDB) (userId : String) : InsightsDB :=
  { db with credits := db.credits.map (fun p => if p.1 = userId then (p.1, p.2 - 1) else p) }

/-- Externally supplied request context of one `generateInsights` run:
the query-string flags, the OpenAI environment configuration, the current
UTC date and timestamp, and the oracle for the OpenAI call. -/
structure GenEnv where
  mockQueryParam : Bool
  mockOpenAIEnv : Bool
  dataUseMock : Bool
  forceQueryParam : Bool
  openaiApiKey : Option String
  today : String
  nowIso : String
  aiResult : AIResult
deriving Repr, DecidableEq

/-- The request-body fields of `generateInsights` the embedding needs:
the authenticated user, the (possibly missing or falsy) site URL, and
the reporting period. -/
structure GenRequest where
  userId : String
  siteUrl : Option String
  period : String
deriving Repr, DecidableEq

/-- Body of a `generateInsights` HTTP response: a JSON error object or an
insight-document body (the stringified document, or a stored `content`
string served verbatim). -/
inductive GenBody where
  | errJson (error : String)
  | doc (content : String)
deriving Repr, DecidableEq

/-- A `generateInsights` HTTP response. -/
structure GenResponse where
  status : Nat
  body : GenBody
deriving Repr, DecidableEq

/-- Observable events of a `generateInsights` run, in execution order:
the credit-balance read, the OpenAI call, the `INSERT OR REPLACE` of the
insight row, and the credit decrement. -/
inductive GenEvent where
  | creditCheck
  | aiCall
  | persistInsight
  | deductCredit
deriving Repr, DecidableEq

/-- Embedding of `generateInsights(request, env)` (insights.js lines
5-502).  Returns the response, the updated store, and the event trace.
The branch order follows the source: site-URL validation, the mock
branch, the OpenAI-key check, the same-day lookup (serving the stored
content unless `?force` is set), the credit check (402 below 1), the
`sk-` key-format check, then the OpenAI call; every OpenAI failure is
answered with the fallback document, and only a parsed document is
patched, persisted and charged (in that order). -/
def generateInsights (env : GenEnv) (req : GenRequest) (db : InsightsDB) :
    GenResponse × InsightsDB × List GenEvent :=
  match req.siteUrl with
  | none => ({ status := 400, body := .errJson "Site URL is required" }, db, [])
  | some siteUrl =>
    if env.mockQueryParam || env.mockOpenAIEnv || env.dataUseMock then
      ({ status := 200, body := .doc (serializeDoc (generateMockInsights siteUrl req.period)) },
       db, [])
    else
      match env.openaiApiKey with
      | none => ({ status := 500, body := .errJson "OpenAI API key not configured" }, db, [])
      | some apiKey =>
        match db.insights.find? (isOverallRow req.userId siteUrl env.today), env.forceQueryParam with
        | some row, false => ({ status := 200, body := .doc row.content }, db, [])
        | _, _ =>
          match db.credits.lookup req.userId with
          | none =>
            ({ status := 200,
               body := .doc (serializeDoc (generateFallbackInsights "your website" "the selected period")) },
             db, [.creditCheck])
          | some credits =>
            if credits < 1 then
              ({ status := 402, body := .errJson "Insufficient credits for insights generation" },
               db, [.creditCheck])
            else if !(strStartsWith apiKey "sk-") then
              ({ status := 200,
                 body := .doc (serializeDoc (generateFallbackInsights siteUrl req.period)) },
               db, [.creditCheck])
            else
              match env.aiResult with
              | .contentParsed doc =>
                let content := serializeDoc (patchInsights doc)
                let db1 := insertOrReplaceInsight db
                  { userId := req.userId, siteUrl := siteUrl, date := env.today,
                    rowType := "overall", content := content, createdAt := env.nowIso }
                let db2 := deductOneCredit db1 req.userId
                ({ status := 200, body := .doc content }, db2,
                 [.creditCheck, .aiCall, .persistInsight, .deductCredit])
              | _ =>
                ({ status := 200,
                   body := .doc (serializeDoc (generateFallbackInsights siteUrl req.period)) },
                 db, [.creditCheck, .aiCall])

/-! ### GSC gateway (src/src/gsc.js, src/src/auth.js) -/

/-- One upstream GSC API response, as the code observes it: `response.ok`
with a JSON body, or a non-2xx status with an error text. -/
inductive UpstreamResp where
  | ok (body : String)
  | httpError (status : Nat) (text : String)
deriving Repr, DecidableEq

/-- Outcome of one OAuth refresh-token exchange, supplied by the
environment: the provider returns a new access token, or a non-2xx
status. -/
inductive RefreshOutcome where
  | success (token : String)
  | failure
deriving Repr, DecidableEq

/-- The state a `getProperties` request reads and writes: the user row
columns `gsc_connected` and `gsc_refresh_token`, the `gsc_token:{userId}`
KV entry, and the oracles for the OAuth exchange and the upstream calls
(consumed one per call, in order). -/
structure GPState where
  gscConnected : Bool
  refreshTok : Option String
  kvToken : Option String
  refreshOutcomes : List RefreshOutcome
  upstream : List UpstreamResp
deriving Repr, DecidableEq

/-- The three ways `refreshToken(request, env)` (auth.js lines 341-386)
can answer: a 400 when no refresh token is stored, a 401 after a failed
exchange (also clearing `gsc_connected`), or a 200 after storing the new
access token in KV. -/
inductive RefreshResult where
  | noToken
  | failed
  | refreshed
deriving Repr, DecidableEq

/-- Embedding of `refreshToken(request, env)`: read the stored refresh
token, exchange it (consuming the next oracle outcome), and either store
the new access token in KV or mark the user disconnected. -/
def refreshToken (st : GPState) : RefreshResult × GPState :=
  match st.refreshTok with
  | none => (.noToken, st)
  | some _ =>
    match st.refreshOutcomes with
    | [] => (.failed, { st with gscConnected := false })
    | .failure :: rest => (.failed, { st with gscConnected := false, refreshOutcomes := rest })
    | .success tok :: rest => (.refreshed, { st with kvToken := some tok, refreshOutcomes := rest })

/-- Body of a `getProperties` response, one constructor per return site of
the source: the 400 not-connected error, a passthrough of a failed
`refreshToken` response, the 401 raised when the token is still missing
after a refresh, the 200 success payload, the passthrough of a non-401
upstream error, the 500 produced when the upstream call throws, and a
marker for a run that exhausts its fuel (the recursion of the source
never returning). -/
inductive GPBody where
  | notConnected
  | refreshHttpFailed (status : Nat)
  | tokenMissingAfterRefresh
  | properties (data : String)
  | upstreamFailed (status : Nat) (text : String)
  | fetchThrew
  | exhausted
deriving Repr, DecidableEq

/-- A `getProperties` HTTP response. -/
structure GPResponse where
  status : Nat
  body : GPBody
deriving Repr, DecidableEq

/-- Observable events of a `getProperties` run: an upstream fetch, the
`AUTH_STORE.delete` of the cached token after a 401, and a
`refreshToken` invocation. -/
inductive GPEvent where
  | upstreamFetch
  | tokenEvict
  | refreshAttempt
deriving Repr, DecidableEq

/-- Embedding of `getProperties(request, env)` (gsc.js lines 25-137).
`fuel` bounds the recursion depth of the source's `return
getProperties(request, env)` retry; a run that would recurse deeper
answers `exhausted`.  The branch order follows the source: the
connection check, the KV token read with a refresh on miss, the upstream
fetch, and on a 401 the token eviction followed by the recursive
retry. -/
def getProperties : Nat → GPState → GPResponse × GPState × List GPEvent
  | 0, st => ({ status := 599, body := .exhausted }, st, [])
  | fuel + 1, st =>
    if !st.gscConnected || st.refreshTok.isNone then
      ({ status := 400, body := .notConnected }, st, [])
    else
      match st.kvToken with
      | some _ =>
        (match st.upstream with
         | [] => ({ status := 500, body := .fetchThrew }, st, [.upstreamFetch])
         | .ok data :: rest =>
             ({ status := 200, body := .properties data },
              { st with upstream := rest }, [.upstreamFetch])
         | .httpError 401 _ :: rest =>
             let st2 := { st with upstream := rest, kvToken := none }
             let next := getProperties fuel st2
             (next.1, next.2.1, .upstreamFetch :: .tokenEvict :: next.2.2)
         | .httpError status text :: rest =>
             ({ status := status, body := .upstreamFailed status text },
              { st with upstream := rest }, [.upstreamFetch]))
      | none =>
        match refreshToken st with
        | (.noToken, st1) => ({ status := 400, body := .refreshHttpFailed 400 }, st1, [.refreshAttempt])
        | (.failed, st1) => ({ status := 401, body := .refreshHttpFailed 401 }, st1, [.refreshAttempt])
        | (.refreshed, st1) =>
          match st1.kvToken with
          | none => ({ status := 401, body := .tokenMissingAfterRefresh }, st1, [.refreshAttempt])
          | some _ =>
            (match st1.upstream with
             | [] => ({ status := 500, body := .fetchThrew }, st1, [.refreshAttempt, .upstreamFetch])
             | .ok data :: rest =>
                 ({ status := 200, body := .properties data },
                  { st1 with upstream := rest }, [.refreshAttempt, .upstreamFetch])
             | .httpError 401 _ :: rest =>
                 let st2 := { st1 with upstream := rest, kvToken := none }
                 let next := getProperties fuel st2
                 (next.1, next.2.1, .refreshAttempt :: .upstreamFetch :: .tokenEvict :: next.2.2)
             | .httpError status text :: rest =>
                 ({ status := status, body := .upstreamFailed status text },
                  { st1 with upstream := rest }, [.refreshAttempt, .upstreamFetch]))

/-- The state a `fetchGSCData` request depends on: the stored refresh
token and the upstream response to its one per-site analytics query. -/
structure FDState where
  refreshTok : Option String
  upstreamResp : UpstreamResp
deriving Repr, DecidableEq

/-- Body of a `fetchGSCData` response: the 400 not-connected error, the
200 passthrough of the upstream rows, or the 500 produced when the
non-2xx upstream status is thrown and caught (`details` carries the
thrown message). -/
inductive FDBody where
  | notConnectedErr
  | queryData (data : String)
  | fetchFailed (details : String)
deriving Repr, DecidableEq

/-- A `fetchGSCData` HTTP response. -/
structure FDResponse where
  status : Nat
  body : FDBody
deriving Repr, DecidableEq

/-- Embedding of `fetchGSCData(request, env)` (gsc.js lines 140-220),
from the refresh-token check onwards: issue the per-site query; a non-ok
upstream status is thrown as `GSC API error: {status}` and caught,
producing a 500 `Failed to fetch GSC data` error response. -/
def fetchGSCData (st : FDState) : FDResponse :=
  match st.refreshTok with
  | none => { status := 400, body := .notConnectedErr }
  | some _ =>
    match st.upstreamResp with
    | .ok data => { status := 200, body := .queryData data }
    | .httpError status _ => { status := 500, body := .fetchFailed ("GSC API error: " ++ toString status) }

/-! ### Concrete fixtures used by witnesses and counterexamples -/

/-- A well-formed model output: every required top-level key present. -/
def sampleDoc : InsightsDoc :=
  { summary := some "Clicks rose strongly.",
    performance := some
      { trend := "up", changePercent := "12%", timePeriod := "28d",
        keyMetricChanges := some [], details := "solid" },
    topFindings := some [], opportunities := some [], recommendations := some [],
    keywordInsights := some defaultKeywordInsights }

/-- A model output that parsed as JSON but carries none of the required
top-level keys. -/
def emptyDoc : InsightsDoc :=
  { summary := none, performance := none, topFindings := none,
    opportunities := none, recommendations := none, keywordInsights := none }

/-- A request context on the success path: no mock flags, no `?force`,
a well-formed `sk-` API key, and a parsed full document from the model. -/
def insEnv : GenEnv :=
  { mockQueryParam := false, mockOpenAIEnv := false, dataUseMock := false,
    forceQueryParam := false, openaiApiKey := some "sk-test-key",
    today := "2026-10-11", nowIso := "2026-10-11T12:00:00.000Z",
    aiResult := .contentParsed sampleDoc }

/-- The same request context, with the model answering a JSON object
that lacks every required key. -/
def insEnvEmptyDoc : GenEnv := { insEnv with aiResult := .contentParsed emptyDoc }

/-- A `generateInsights` request for user `u1` and one site. -/
def insReq : GenRequest :=
  { userId := "u1", siteUrl := some "https://example.com/", period := "last 28 days" }

/-- A store with no insight rows and 5 credits for `u1`. -/
def insDB : InsightsDB := { insights := [], credits := [("u1", 5)] }

/-- A `getProperties` state: connected user with a cached access token,
an upstream that answers 401 twice and then succeeds, and an OAuth
endpoint that issues a fresh token on every exchange. -/
def gpStart : GPState :=
  { gscConnected := true, refreshTok := some "refresh-1", kvToken := some "tok-0",
    refreshOutcomes := [.success "tok-1", .success "tok-2"],
    upstream := [.httpError 401 "Invalid Credentials", .httpError 401 "Invalid Credentials",
                 .ok "siteEntry-data"] }

/-- A `getProperties` state whose upstream answers 401 on every call and
whose OAuth endpoint always succeeds. -/
def gpAll401 : GPState :=
  { gscConnected := true, refreshTok := some "refresh-1", kvToken := some "tok-0",
    refreshOutcomes := List.replicate 10 (.success "tok-x"),
    upstream := List.replicate 10 (.httpError 401 "Invalid Credentials") }

/-- A rate-limiter store holding a window entry whose reset timestamp is
exactly the current time (`now == reset`), with the count at the limit. -/
def boundaryRLStore : RLStore :=
  emptyRLStore.put (windowKey "rate_limit:gsc:u1:query" 60 120000) { count := 2, reset := 120000 }

/-- The AI-call outcomes the error-handling branches of `generateInsights`
treat as failures (everything except a parsed document). -/
def aiFailure : AIResult → Bool
  | .contentParsed _ => false
  | _ => true

/-- The success-path request context with the OpenAI call failing at the
transport layer (network error or timeout). -/
def insEnvFetchError : GenEnv := { insEnv with aiResult := .fetchError }

/-! ### Helper lemmas -/

theorem RLStore.put_self (kv : RLStore) (k : String) (v : RLEntry) : kv.put k v k = some v := by
  unfold RLStore.put
  simp

theorem checkRateLimit_fresh (kv : RLStore) (key : String) (limit window now : Nat)
    (h : kv (windowKey key window now) = none) (hlim : 0 < limit) :
    checkRateLimit kv key limit window now =
      ({ limited := false, remaining := (limit : Int) - 1, reset := now + window * 1000 },
       kv.put (windowKey key window now) { count := 1, reset := now + window * 1000 }) := by
  unfold checkRateLimit
  dsimp only
  rw [h]
  simp only [Option.getD_none]
  rw [if_neg (by omega : ¬ now > now + window * 1000)]
  rw [if_neg (by omega : ¬ (0 : Nat) ≥ limit)]
  norm_num

theorem checkRateLimit_at_limit (kv : RLStore) (key : String) (limit window now c r : Nat)
    (h : kv (windowKey key window now) = some { count := c, reset := r })
    (hnr : ¬ now > r) (hc : c ≥ limit) :
    checkRateLimit kv key limit window now = ({ limited := true, remaining := 0, reset := r }, kv) := by
  unfold checkRateLimit
  dsimp only
  rw [h]
  simp only [Option.getD_some]
  rw [if_neg hnr, if_pos hc]

theorem checkRateLimit_increment (kv : RLStore) (key : String) (limit window now c r : Nat)
    (h : kv (windowKey key window now) = some { count := c, reset := r })
    (hnr : ¬ now > r) (hc : c < limit) :
    checkRateLimit kv key limit window now =
      ({ limited := false, remaining := (limit : Int) - ((c : Int) + 1), reset := r },
       kv.put (windowKey key window now) { count := c + 1, reset := r }) := by
  unfold checkRateLimit
  dsimp only
  rw [h]
  simp only [Option.getD_some]
  rw [if_neg hnr, if_neg (by omega : ¬ c ≥ limit)]

theorem nearWindowBound (t1 t2 : Nat) (h : t2 / 60000 = t1 / 60000) : t2 ≤ t1 + 60000 := by
  have d1 := Nat.div_add_mod t1 60000
  have d2 := Nat.div_add_mod t2 60000
  have m2 : t2 % 60000 < 60000 := Nat.mod_lt _ (by norm_num)
  omega

/-- Claim C7: with `limit = 2` and `window = 60`, three consecutive
`checkRateLimit` calls for the same key inside one 60-second window
return, in order, not-limited with remaining 1, not-limited with
remaining 0, and limited with remaining 0 carrying the stored window
reset timestamp. -/
theorem checkRateLimit_three_calls (key : String) (t1 t2 t3 : Nat)
    (h2 : t2 / 60000 = t1 / 60000) (h3 : t3 / 60000 = t1 / 60000) :
    (checkRateLimit emptyRLStore key 2 60 t1).1
        = { limited := false, remaining := 1, reset := t1 + 60000 } ∧
    (checkRateLimit (checkRateLimit emptyRLStore key 2 60 t1).2 key 2 60 t2).1
        = { limited := false, remaining := 0, reset := t1 + 60000 } ∧
    (checkRateLimit (checkRateLimit (checkRateLimit emptyRLStore key 2 60 t1).2 key 2 60 t2).2
        key 2 60 t3).1
        = { limited := true, remaining := 0, reset := t1 + 60000 } := by
  have hwk2 : windowKey key 60 t2 = windowKey key 60 t1 := by
    unfold windowKey
    have : t2 / (60 * 1000) = t1 / (60 * 1000) := h2
    rw [this]
  have hwk3 : windowKey key 60 t3 = windowKey key 60 t1 := by
    unfold windowKey
    have : t3 / (60 * 1000) = t1 / (60 * 1000) := h3
    rw [this]
  have e1 : checkRateLimit emptyRLStore key 2 60 t1 =
      ({ limited := false, remaining := 1, reset := t1 + 60000 },
       emptyRLStore.put (windowKey key 60 t1) { count := 1, reset := t1 + 60000 }) := by
    have := checkRateLimit_fresh emptyRLStore key 2 60 t1 rfl (by norm_num)
    simpa using this
  have hl2 : (emptyRLStore.put (windowKey key 60 t1) { count := 1, reset := t1 + 60000 })
      (windowKey key 60 t2) = some { count := 1, reset := t1 + 60000 } := by
    rw [hwk2]
    exact RLStore.put_self _ _ _
  have e2 : checkRateLimit (emptyRLStore.put (windowKey key 60 t1) { count := 1, reset := t1 + 60000 })
        key 2 60 t2 =
      ({ limited := false, remaining := 0, reset := t1 + 60000 },
       (emptyRLStore.put (windowKey key 60 t1) { count := 1, reset := t1 + 60000 }).put
         (windowKey key 60 t2) { count := 2, reset := t1 + 60000 }) := by
    have hb : ¬ t2 > t1 + 60000 := by
      have := nearWindowBound t1 t2 h2
      omega
    have := checkRateLimit_increment _ key 2 60 t2 1 (t1 + 60000) hl2 hb (by norm_num)
    simpa using this
  have hl3 : ((emptyRLStore.put (windowKey key 60 t1) { count := 1, reset := t1 + 60000 }).put
      (windowKey key 60 t2) { count := 2, reset := t1 + 60000 })
      (windowKey key 60 t3) = some { count := 2, reset := t1 + 60000 } := by
    rw [hwk3, ← hwk2]
    exact RLStore.put_self _ _ _
  have e3 := checkRateLimit_at_limit _ key 2 60 t3 2 (t1 + 60000) hl3
    (by have := nearWindowBound t1 t3 h3; omega) (by norm_num)
  refine ⟨by rw [e1], by rw [e1, e2], ?_⟩
  rw [e1, e2, e3]

/-- Closed instance of `checkRateLimit_three_calls` at times 0, 1000 and
2000 milliseconds inside the first window. -/
theorem checkRateLimit_three_calls_witness :
    (checkRateLimit emptyRLStore "rate_limit:gsc:u1:query" 2 60 0).1
        = { limited := false, remaining := 1, reset := 60000 } ∧
    (checkRateLimit (checkRateLimit emptyRLStore "rate_limit:gsc:u1:query" 2 60 0).2
        "rate_limit:gsc:u1:query" 2 60 1000).1
        = { limited := false, remaining := 0, reset := 60000 } ∧
    (checkRateLimit (checkRateLimit (checkRateLimit emptyRLStore "rate_limit:gsc:u1:query" 2 60 0).2
        "rate_limit:gsc:u1:query" 2 60 1000).2 "rate_limit:gsc:u1:query" 2 60 2000).1
        = { limited := true, remaining := 0, reset := 60000 } :=
  checkRateLimit_three_calls "rate_limit:gsc:u1:query" 0 1000 2000 (by decide) (by decide)

/-- Claim C8 counterexample: at the exact boundary `now == reset` (stored
entry `{count := 2, reset := 120000}` read at `now = 120000` with
`limit = 2`), `checkRateLimit` does not start a fresh window; it returns
the limited result, not `{limited := false, remaining := limit - 1}` as
the claim states. -/
theorem checkRateLimit_boundary_cex :
    (checkRateLimit boundaryRLStore "rate_limit:gsc:u1:query" 2 60 120000).1
      = { limited := true, remaining := 0, reset := 120000 } := by decide

/-- Claim C8 (amended): the window-expiry test of `checkRateLimit` is the
strict comparison `now > reset`; when the stored entry's reset timestamp
equals `now`, the stored window is still honored: the call returns the
limited result when the count has reached the limit and otherwise
increments the count, and in neither case resets the count to 1. -/
theorem checkRateLimit_boundary_strict (key : String) (limit window now c : Nat) :
    (checkRateLimit (emptyRLStore.put (windowKey key window now) { count := c, reset := now })
        key limit window now).1
      = if c ≥ limit then { limited := true, remaining := 0, reset := now }
        else { limited := false, remaining := (limit : Int) - ((c : Int) + 1), reset := now } := by
  by_cases hc : c ≥ limit
  · rw [checkRateLimit_at_limit _ key limit window now c now (RLStore.put_self _ _ _)
      (by omega) hc, if_pos hc]
  · rw [checkRateLimit_increment _ key limit window now c now (RLStore.put_self _ _ _)
      (by omega) (by omega), if_neg hc]

/-- Claim C9: `generateGSCacheKey` is not injective in the parameter
list: the two distinct parameter maps `a = "1|b:2"` and
`a = "1", b = "2"` collide on the same cache key for the same user and
endpoint, because names and values are joined with `:` and `|` without
escaping. -/
theorem generateGSCacheKey_collision :
    ([("a", "1|b:2")] : List (String × String)) ≠ [("a", "1"), ("b", "2")] ∧
    generateGSCacheKey "u1" "query" [("a", "1|b:2")]
      = generateGSCacheKey "u1" "query" [("a", "1"), ("b", "2")] := by decide

theorem getField_cons (f g : String) (v : JSValue) (body : List (String × JSValue)) :
    getField ((f, v) :: body) g = if g = f then v else getField body g := by
  unfold getField
  by_cases h : g = f
  · simp [List.lookup, h]
  · have hb : (g == f) = false := beq_eq_false_iff_ne.mpr h
    simp [List.lookup, hb, h]

/-- Claim C10: `validateRequiredFields` treats every required field whose
value is falsy (absent, null, empty string, 0, or false) as missing: any
such field appears in the `missingFields` details of the one thrown
`ValidationError`, and a body supplying a required field with value `0`
or `""` is rejected exactly as the body without the field. -/
theorem validateRequiredFields_falsy_missing (body : List (String × JSValue))
    (req : List String) (f : String) (hnf : body.lookup f = none) :
    (∀ g ∈ req, (getField body g).truthy = false →
        ∃ e, validateRequiredFields body req = .error e ∧ g ∈ e.missingFields) ∧
    validateRequiredFields ((f, .number 0) :: body) req = validateRequiredFields body req ∧
    validateRequiredFields ((f, .strv "") :: body) req = validateRequiredFields body req := by
  have hundef : getField body f = .undefv := by
    unfold getField
    rw [hnf]
    rfl
  have hcongr : ∀ (v : JSValue), v.truthy = false →
      validateRequiredFields ((f, v) :: body) req = validateRequiredFields body req := by
    intro v hv
    unfold validateRequiredFields
    have hfilter : req.filter (fun g => !(getField ((f, v) :: body) g).truthy)
        = req.filter (fun g => !(getField body g).truthy) := by
      apply List.filter_congr
      intro g _
      rw [getField_cons]
      by_cases hg : g = f
      · rw [if_pos hg, hg, hundef, hv]
        rfl
      · rw [if_neg hg]
    rw [hfilter]
  refine ⟨?_, hcongr _ rfl, hcongr _ rfl⟩
  intro g hg ht
  have hmem : g ∈ req.filter (fun x => !(getField body x).truthy) := by
    rw [List.mem_filter]
    exact ⟨hg, by simp [ht]⟩
  have hlen : req.filter (fun x => !(getField body x).truthy) ≠ [] :=
    List.ne_nil_of_mem hmem
  refine ⟨⟨"Missing required fields: " ++
      String.intercalate ", " (req.filter (fun x => !(getField body x).truthy)),
      req.filter (fun x => !(getField body x).truthy)⟩, ?_, hmem⟩
  unfold validateRequiredFields
  rw [if_pos]
  have := List.length_pos.mpr hlen
  omega

/-- Closed instance of `validateRequiredFields_falsy_missing`: supplying
`startDate = 0` is rejected exactly as omitting `startDate`. -/
theorem validateRequiredFields_falsy_missing_witness :
    validateRequiredFields [("startDate", JSValue.number 0), ("siteUrl", JSValue.strv "https://example.com/")]
        ["siteUrl", "startDate"]
      = validateRequiredFields [("siteUrl", JSValue.strv "https://example.com/")]
        ["siteUrl", "startDate"] :=
  (validateRequiredFields_falsy_missing [("siteUrl", JSValue.strv "https://example.com/")]
    ["siteUrl", "startDate"] "startDate" (by decide)).2.1

theorem chargedState_closed (B : Nat) : ∀ k : Nat,
    chargedState B k =
      { credits := (B : Int) - (min k B : Nat), creditLogs := List.replicate (min k B) 1 } := by
  intro k
  induction k with
  | zero =>
    simp [chargedState, chargeRepeat]
  | succ k ih =>
    have step : chargedState B (k + 1) = (useCredits (chargedState B k) 1).2 := rfl
    rw [step, ih]
    by_cases hk : k < B
    · have hmin : min k B = k := by omega
      have hmin2 : min (k + 1) B = k + 1 := by omega
      rw [hmin, hmin2]
      unfold useCredits
      rw [if_neg (by omega : ¬ ((B : Int) - (k : Nat) < 1))]
      simp only []
      rw [List.replicate_succ']
      simp only [CreditState.mk.injEq, and_true]
      push_cast
      ring
    · have hmin : min k B = B := by omega
      have hmin2 : min (k + 1) B = B := by omega
      rw [hmin, hmin2]
      unfold useCredits
      rw [if_pos (by omega : (B : Int) - (B : Nat) < 1)]

/-- Claim C6: starting from any non-negative balance `B`, the stored
balance after any number of unit `useCredits` charges is never negative
and always equals the initial grant minus the sum of the logged debits;
the next charge succeeds exactly when fewer than `B` have happened and
fails with the insufficient-credits error (mutating nothing) from the
`B`-th on. -/
theorem useCredits_ledger_invariant (B k : Nat) :
    0 ≤ (chargedState B k).credits ∧
    (chargedState B k).credits = (B : Int) - (chargedState B k).creditLogs.sum ∧
    (k < B → (useCredits (chargedState B k) 1).1 = .success ((B : Int) - ((k : Int) + 1))) ∧
    (B ≤ k → (useCredits (chargedState B k) 1).1 = .insufficient 0 ∧
             (useCredits (chargedState B k) 1).2 = chargedState B k) := by
  have hc := chargedState_closed B k
  have hsum : (List.replicate (min k B) (1 : Int)).sum = (min k B : Nat) := by
    rw [List.sum_replicate]
    simp
  refine ⟨?_, ?_, ?_, ?_⟩
  · rw [hc]
    have : min k B ≤ B := by omega
    dsimp only
    omega
  · rw [hc]
    simp only [hsum]
  · intro hk
    have hmin : min k B = k := by omega
    rw [hc, hmin]
    unfold useCredits
    rw [if_neg (by omega : ¬ ((B : Int) - (k : Nat) < 1))]
    simp only [UseCreditsResult.success.injEq]
    ring
  · intro hk
    have hmin : min k B = B := by omega
    rw [hc, hmin]
    unfold useCredits
    rw [if_pos (by omega : (B : Int) - (B : Nat) < 1)]
    constructor
    · simp only [UseCreditsResult.insufficient.injEq]
      omega
    · rfl

/-- Closed instance of `useCredits_ledger_invariant`: after 5 unit
charges against an initial grant of 3 credits, the next charge fails
with the insufficient-credits error. -/
theorem useCredits_ledger_invariant_witness :
    (useCredits (chargedState 3 5) 1).1 = .insufficient 0 :=
  ((useCredits_ledger_invariant 3 5).2.2.2 (by decide)).1

theorem generateInsights_trace_shape (env : GenEnv) (req : GenRequest) (db : InsightsDB) :
    (generateInsights env req db).2.2 = [] ∨
    (generateInsights env req db).2.2 = [.creditCheck] ∨
    (generateInsights env req db).2.2 = [.creditCheck, .aiCall] ∨
    (generateInsights env req db).2.2
      = [.creditCheck, .aiCall, .persistInsight, .deductCredit] := by
  unfold generateInsights
  repeat' split
  all_goals simp

/-- Claim C3 counterexample: a successful run with no same-day record
(user `u1`, 5 credits, model answering a full document) deducts the
credit, but only after the OpenAI call: no deduction event precedes the
`aiCall` event, refuting that a credit is charged before the AI provider
is called. -/
theorem generateInsights_charge_not_before_ai_cex :
    (generateInsights insEnv insReq insDB).2.2
      = [.creditCheck, .aiCall, .persistInsight, .deductCredit] ∧
    ((generateInsights insEnv insReq insDB).2.2.takeWhile
        (fun e => e != GenEvent.aiCall)).contains GenEvent.deductCredit = false := by
  constructor <;> decide

/-- Claim C3 (amended): the credit-balance check runs before the OpenAI
call — with a balance below 1 the run answers 402 with no AI call — but
the one-credit deduction is applied only after a successful OpenAI
response, together with persisting the record: every trace containing a
deduction is check, AI call, persist, deduct, in that order. -/
theorem generateInsights_charge_after_ai :
    (∀ (env : GenEnv) (req : GenRequest) (db : InsightsDB),
      GenEvent.deductCredit ∈ (generateInsights env req db).2.2 →
      (generateInsights env req db).2.2
        = [.creditCheck, .aiCall, .persistInsight, .deductCredit]) ∧
    (∀ (env : GenEnv) (req : GenRequest) (db : InsightsDB) (s key : String) (c : Int),
      req.siteUrl = some s →
      env.mockQueryParam = false → env.mockOpenAIEnv = false → env.dataUseMock = false →
      env.openaiApiKey = some key →
      db.insights.find? (isOverallRow req.userId s env.today) = none →
      db.credits.lookup req.userId = some c → c < 1 →
      (generateInsights env req db).1.status = 402 ∧
      (generateInsights env req db).2.2 = [.creditCheck]) := by
  constructor
  · intro env req db h
    rcases generateInsights_trace_shape env req db with h0 | h0 | h0 | h0 <;>
      rw [h0] at h ⊢ <;> simp_all
  · intro env req db s key c hsu hm1 hm2 hm3 hk hex hcred hc
    unfold generateInsights
    simp only [hsu, hm1, hm2, hm3, hk, hex, hcred, Bool.false_or, Bool.or_self]
    rw [if_pos hc]
    exact ⟨rfl, rfl⟩

/-- Closed instance of the 402 part of `generateInsights_charge_after_ai`:
with 0 credits the run answers 402 and performs no AI call. -/
theorem generateInsights_charge_after_ai_witness :
    (generateInsights insEnv insReq { insights := [], credits := [("u1", 0)] }).1.status = 402 ∧
    (generateInsights insEnv insReq { insights := [], credits := [("u1", 0)] }).2.2
      = [GenEvent.creditCheck] :=
  generateInsights_charge_after_ai.2 insEnv insReq { insights := [], credits := [("u1", 0)] }
    "https://example.com/" "sk-test-key" 0 rfl rfl rfl rfl rfl (by decide) (by decide) (by decide)

theorem lookup_mapDeduct (credits : List (String × Int)) (u : String) (c : Int)
    (h : credits.lookup u = some c) :
    (credits.map (fun p => if p.1 = u then (p.1, p.2 - 1) else p)).lookup u = some (c - 1) := by
  induction credits with
  | nil => simp [List.lookup] at h
  | cons p rest ih =>
    rcases p with ⟨a, b⟩
    by_cases hp : u = a
    · subst hp
      simp only [List.lookup, beq_self_eq_true] at h
      cases h
      rw [List.map_cons]
      dsimp only
      rw [if_pos rfl]
      simp [List.lookup]
    · have hb : (u == a) = false := beq_eq_false_iff_ne.mpr hp
      have hpa : ¬ a = u := fun e => hp e.symm
      simp only [List.lookup, hb] at h
      rw [List.map_cons]
      dsimp only
      rw [if_neg hpa]
      simp only [List.lookup, hb]
      exact ih h

theorem generateInsights_success_eval (env : GenEnv) (req : GenRequest) (db : InsightsDB)
    (s key : String) (doc : InsightsDoc) (c : Int)
    (hsu : req.siteUrl = some s)
    (hm1 : env.mockQueryParam = false) (hm2 : env.mockOpenAIEnv = false)
    (hm3 : env.dataUseMock = false)
    (hk : env.openaiApiKey = some key) (hsk : strStartsWith key "sk-" = true)
    (hex : db.insights.find? (isOverallRow req.userId s env.today) = none)
    (hcred : db.credits.lookup req.userId = some c) (hc : ¬ c < 1)
    (hai : env.aiResult = .contentParsed doc) :
    generateInsights env req db =
      ({ status := 200, body := .doc (serializeDoc (patchInsights doc)) },
       deductOneCredit (insertOrReplaceInsight db
         { userId := req.userId, siteUrl := s, date := env.today, rowType := "overall",
           content := serializeDoc (patchInsights doc), createdAt := env.nowIso }) req.userId,
       [.creditCheck, .aiCall, .persistInsight, .deductCredit]) := by
  unfold generateInsights
  simp only [hsu, hm1, hm2, hm3, hk, hex, hcred, hai, hsk, Bool.false_or, Bool.or_self,
    Bool.not_true]
  rw [if_neg hc]
  simp only [Bool.false_eq_true, if_false]

/-- Claim C4: when the first same-day `generateInsights` run goes through
the success path (site URL present, no mock flag, well-formed `sk-` key,
no prior same-day record, at least one credit, parsed model document) and
`?force` is unset, a second run on the same UTC day returns the stored
record verbatim — a byte-identical body — with an empty event trace (so
no AI call and no credit deduction), and the balance is decremented
exactly once across the two runs. -/
theorem generateInsights_idempotent_same_day (env : GenEnv) (req : GenRequest) (db : InsightsDB)
    (s key : String) (doc : InsightsDoc) (c : Int)
    (hsu : req.siteUrl = some s)
    (hm1 : env.mockQueryParam = false) (hm2 : env.mockOpenAIEnv = false)
    (hm3 : env.dataUseMock = false) (hforce : env.forceQueryParam = false)
    (hk : env.openaiApiKey = some key) (hsk : strStartsWith key "sk-" = true)
    (hex : db.insights.find? (isOverallRow req.userId s env.today) = none)
    (hcred : db.credits.lookup req.userId = some c) (hc : ¬ c < 1)
    (hai : env.aiResult = .contentParsed doc) :
    (generateInsights env req (generateInsights env req db).2.1).1.body
      = (generateInsights env req db).1.body ∧
    (generateInsights env req (generateInsights env req db).2.1).2.2 = [] ∧
    (generateInsights env req db).2.1.credits.lookup req.userId = some (c - 1) ∧
    (generateInsights env req (generateInsights env req db).2.1).2.1.credits.lookup req.userId
      = some (c - 1) := by
  have e1 := generateInsights_success_eval env req db s key doc c hsu hm1 hm2 hm3 hk hsk hex
    hcred hc hai
  have hcred1 : (deductOneCredit (insertOrReplaceInsight db
      { userId := req.userId, siteUrl := s, date := env.today, rowType := "overall",
        content := serializeDoc (patchInsights doc), createdAt := env.nowIso })
        req.userId).credits.lookup req.userId = some (c - 1) :=
    lookup_mapDeduct db.credits req.userId c hcred
  have hfind : (deductOneCredit (insertOrReplaceInsight db
      { userId := req.userId, siteUrl := s, date := env.today, rowType := "overall",
        content := serializeDoc (patchInsights doc), createdAt := env.nowIso })
        req.userId).insights.find? (isOverallRow req.userId s env.today)
      = some { userId := req.userId, siteUrl := s, date := env.today, rowType := "overall",
               content := serializeDoc (patchInsights doc), createdAt := env.nowIso } := by
    have hp : isOverallRow req.userId s env.today
        { userId := req.userId, siteUrl := s, date := env.today, rowType := "overall",
          content := serializeDoc (patchInsights doc), createdAt := env.nowIso } = true := by
      simp [isOverallRow]
    exact List.find?_cons_of_pos _ hp
  have e2 : generateInsights env req (deductOneCredit (insertOrReplaceInsight db
      { userId := req.userId, siteUrl := s, date := env.today, rowType := "overall",
        content := serializeDoc (patchInsights doc), createdAt := env.nowIso }) req.userId)
      = ({ status := 200, body := .doc (serializeDoc (patchInsights doc)) },
         deductOneCredit (insertOrReplaceInsight db
           { userId := req.userId, siteUrl := s, date := env.today, rowType := "overall",
             content := serializeDoc (patchInsights doc), createdAt := env.nowIso }) req.userId,
         []) := by
    unfold generateInsights
    simp only [hsu, hm1, hm2, hm3, hk, hforce, Bool.false_or, Bool.or_self, hfind,
      Bool.false_eq_true, if_false]
  refine ⟨?_, ?_, ?_, ?_⟩
  · rw [e1]
    dsimp only
    rw [e2]
  · rw [e1]
    dsimp only
    rw [e2]
  · rw [e1]
    exact hcred1
  · rw [e1]
    dsimp only
    rw [e2]
    exact hcred1

/-- Closed instance of `generateInsights_idempotent_same_day` for user
`u1` with 5 credits and a full parsed document. -/
theorem generateInsights_idempotent_same_day_witness :
    (generateInsights insEnv insReq (generateInsights insEnv insReq insDB).2.1).1.body
      = (generateInsights insEnv insReq insDB).1.body ∧
    (generateInsights insEnv insReq (generateInsights insEnv insReq insDB).2.1).2.2 = [] ∧
    (generateInsights insEnv insReq insDB).2.1.credits.lookup "u1" = some 4 ∧
    (generateInsights insEnv insReq
        (generateInsights insEnv insReq insDB).2.1).2.1.credits.lookup "u1" = some 4 :=
  generateInsights_idempotent_same_day insEnv insReq insDB "https://example.com/" "sk-test-key"
    sampleDoc 5 rfl rfl rfl rfl rfl rfl (by decide) (by decide) (by decide) (by decide) rfl

/-- Claim C5 counterexample: when the model answers HTTP 200 with the
valid JSON object containing none of the required top-level keys, the
run does not return the fallback document: it returns (and persists,
and charges for) the patched document, which still has no `summary`. -/
theorem generateInsights_missing_keys_not_fallback_cex :
    (generateInsights insEnvEmptyDoc insReq insDB).1.body
      = .doc (serializeDoc (patchInsights emptyDoc)) ∧
    serializeDoc (patchInsights emptyDoc)
      ≠ serializeDoc (generateFallbackInsights "https://example.com/" "last 28 days") ∧
    (patchInsights emptyDoc).summary = none ∧
    (generateInsights insEnvEmptyDoc insReq insDB).2.2
      = [.creditCheck, .aiCall, .persistInsight, .deductCredit] :=
  ⟨rfl, by decide, rfl, by decide⟩

/-- Claim C5 (amended): for every transport-level OpenAI failure —
network error, timeout, non-2xx status, unparseable response body,
missing `choices[0].message`, or message content that is not a JSON
object — `generateInsights` returns the deterministic fallback document
with status 200, leaving the store untouched (no persist, no charge);
but a parsed JSON object missing required top-level keys is not replaced
by the fallback (see the counterexample). -/
theorem generateInsights_ai_failure_fallback (env : GenEnv) (req : GenRequest) (db : InsightsDB)
    (s key : String) (c : Int)
    (hsu : req.siteUrl = some s)
    (hm1 : env.mockQueryParam = false) (hm2 : env.mockOpenAIEnv = false)
    (hm3 : env.dataUseMock = false)
    (hk : env.openaiApiKey = some key) (hsk : strStartsWith key "sk-" = true)
    (hex : db.insights.find? (isOverallRow req.userId s env.today) = none)
    (hcred : db.credits.lookup req.userId = some c) (hc : ¬ c < 1)
    (hfail : aiFailure env.aiResult = true) :
    generateInsights env req db
      = ({ status := 200, body := .doc (serializeDoc (generateFallbackInsights s req.period)) },
         db, [.creditCheck, .aiCall]) := by
  unfold generateInsights
  simp only [hsu, hm1, hm2, hm3, hk, hex, hcred, hsk, Bool.false_or, Bool.or_self,
    Bool.not_true, Bool.false_eq_true, if_false]
  rw [if_neg hc]
  cases hai : env.aiResult with
  | fetchError => rfl
  | badStatus n => rfl
  | invalidBody => rfl
  | contentNotJson cs => rfl
  | contentParsed d =>
    rw [hai] at hfail
    simp [aiFailure] at hfail

/-- Closed instance of `generateInsights_ai_failure_fallback` for a
network failure of the OpenAI call. -/
theorem generateInsights_ai_failure_fallback_witness :
    generateInsights insEnvFetchError insReq insDB
      = ({ status := 200,
           body := .doc (serializeDoc
             (generateFallbackInsights "https://example.com/" "last 28 days")) },
         insDB, [GenEvent.creditCheck, GenEvent.aiCall]) :=
  generateInsights_ai_failure_fallback insEnvFetchError insReq insDB "https://example.com/"
    "sk-test-key" 5 rfl rfl rfl rfl rfl (by decide) (by decide) (by decide) (by decide) rfl

/-- Claim C1: the 401 retry of `getProperties` is an unbounded recursive
self-call, not a single retry.  With an upstream answering 401 twice and
then succeeding, the run evicts and refreshes the token twice and
returns the third call's payload — the second 401 is never surfaced as
an auth error — and with an upstream answering 401 on every call the
recursion never returns (it exhausts any fuel). -/
theorem getProperties_unbounded_retry :
    (getProperties 5 gpStart).1 = { status := 200, body := .properties "siteEntry-data" } ∧
    (getProperties 5 gpStart).2.2.count GPEvent.refreshAttempt = 2 ∧
    (getProperties 3 gpAll401).1.body = .exhausted :=
  ⟨by decide, by decide, by decide⟩

/-- Claim C2 counterexample: a 404 from the per-site query is surfaced
as an error — `fetchGSCData` catches the thrown status and answers 500
`Failed to fetch GSC data`, and `getProperties` passes the 404 through —
not as the claimed `{success: true, rows: [], notFound, suggestions}`
result. -/
theorem fetchGSCData_404_cex :
    fetchGSCData { refreshTok := some "refresh-1", upstreamResp := .httpError 404 "Site not found" }
      = { status := 500, body := .fetchFailed "GSC API error: 404" } ∧
    (getProperties 1
      { gscConnected := true, refreshTok := some "refresh-1",
        kvToken := some "tok-0", refreshOutcomes := [],
        upstream := [.httpError 404 "Site not found"] }).1
      = { status := 404, body := .upstreamFailed 404 "Site not found" } :=
  ⟨by decide, by decide⟩

/-- Claim C2 (amended): a 404 per-site upstream response is surfaced as
an error, for every error text: `fetchGSCData` answers 500 with details
`GSC API error: 404`, and `getProperties` passes the upstream status and
text through with `success: false`; no empty-row success and no
site-format suggestions are produced. -/
theorem gsc_404_error_passthrough (rt t : String) :
    fetchGSCData { refreshTok := some rt, upstreamResp := .httpError 404 t }
      = { status := 500, body := .fetchFailed "GSC API error: 404" } ∧
    (getProperties 1
      { gscConnected := true, refreshTok := some rt, kvToken := some "tok-0",
        refreshOutcomes := [], upstream := [.httpError 404 t] }).1
      = { status := 404, body := .upstreamFailed 404 t } := by
  constructor
  · rfl
  · rfl
